import Mathlib

/-!
Verification of the Vehicle_security repository's hardware authentication
pipeline: a shallow embedding of `src/hardware/facial_recognition.py`,
`src/hardware/authentication_service.py`, `src/hardware/relay_control.py`
and `src/hardware/gsm_module.py`, followed by theorems settling the
specification claims about it.

External collaborators (OpenCV detection/encoding, numpy norm, the Django
ORM stores, GPS/GSM/camera hardware, the settings module) are modelled as
parameters of an environment structure; the repository's own control flow
is transcribed line by line.
-/

namespace VehicleSecurity

abbrev VehicleId := Nat
abbrev UserId := Nat

/-- Face rectangle (x, y, w, h) as returned by detectMultiScale
(facial_recognition.py line 49). -/
structure FaceRect where
  x : Nat
  y : Nat
  w : Nat
  h : Nat
deriving DecidableEq, Repr

/-- Face encoding: a 2-D numpy array of intensities
(facial_recognition.py extract_face_encoding).  The shape field models
`array.shape`; the comparison loop skips shape-mismatched candidates. -/
structure Encoding where
  rows : Nat
  cols : Nat
  data : List ℚ
deriving DecidableEq, Repr

/-- Models numpy `.shape`. -/
def Encoding.shape (e : Encoding) : Nat × Nat := (e.rows, e.cols)

/-- Vehicle record fields used by the coordinator
(vehicle_tracking/models.py: registration_number, owner.phone_number). -/
structure Vehicle where
  registration : String
  ownerPhone : String
deriving DecidableEq, Repr

/-- User record fields used by the coordinator (authentication/models.py). -/
structure User where
  fullName : String
deriving DecidableEq, Repr

/-- GPS fix fields used by the coordinator (gps_module read_gps_data). -/
structure Location where
  latitude : ℚ
  longitude : ℚ
deriving DecidableEq, Repr

/-- Confidence normalization, facial_recognition.py line 212:
`normalized_confidence = max(0, 1 - (best_confidence / 10000))`. -/
def normalized_confidence (d : ℚ) : ℚ := max 0 (1 - d / 10000)

/-- Confidence of the loop's best distance, where `none` stands for the
initial `best_confidence = float('inf')` (line 193): in Python,
`max(0, 1 - inf/10000)` evaluates to `0.0`. -/
def normConfidence : Option ℚ → ℚ
  | none => 0
  | some d => normalized_confidence d

namespace RelayController

/-- relay_control.py line 24: `self.engine_state = False` on init. -/
def initState : Bool := false

/-- relay_control.py enable_engine (lines 42-59): on a GPIO exception the
state assignment is never reached and False is returned; otherwise the
tracked state becomes True and True is returned.  `gpioThrows` models the
external GPIO call raising.  Result: (returned value, new engine_state). -/
def enable_engine (gpioThrows : Bool) (engineState : Bool) : Bool × Bool :=
  if gpioThrows then (false, engineState) else (true, true)

/-- relay_control.py disable_engine (lines 61-78), symmetric to enable. -/
def disable_engine (gpioThrows : Bool) (engineState : Bool) : Bool × Bool :=
  if gpioThrows then (false, engineState) else (true, false)

end RelayController

namespace SimulatedRelayController

/-- relay_control.py lines 120-124: simulated enable always sets state
True and returns True. -/
def enable_engine (_engineState : Bool) : Bool × Bool := (true, true)

/-- relay_control.py lines 126-130: simulated disable always sets state
False and returns True. -/
def disable_engine (_engineState : Bool) : Bool × Bool := (true, false)

end SimulatedRelayController

/-- Writes performed by the GSM module on the serial transport
(gsm_module.py send_at_command line 65 and send_sms line 102). -/
inductive SerialWrite
  | atCommand (cmd : String)
  | payload (data : String)
deriving DecidableEq, Repr

/-- Python substring membership test `pat in s`. -/
def containsStr (s pat : String) : Bool :=
  s.data.tails.any (fun t => pat.data.isPrefixOf t)

/-- Python slicing `s[:n]`. -/
def takeChars (s : String) (n : Nat) : String := String.mk (s.data.take n)

/-- the Ctrl+Z terminator chr(26) appended to the SMS body before writing
it to the serial port (gsm_module.py line 102). -/
def ctrlZ : String := String.mk [Char.ofNat 26]

/-- Responses of the external serial transport as observed by send_sms:
whether connect() succeeds, the responses read back after the AT+CMGF and
AT+CMGS commands (`none` models no/empty response), and the response read
after the message payload. -/
structure GSMEnv where
  connectOk : Bool
  cmgfResponse : Option String
  cmgsResponse : Option String
  finalResponse : String

/-- gsm_module.py send_sms (lines 75-113), transcribed: connect if not
connected; send AT+CMGF=1 and require an OK; send AT+CMGS="phone" and
require a prompt containing the greater-than sign; then write the message
followed by chr(26) and report success iff the final response contains OK
or +CMGS.  Returns the boolean result and the list of serial writes. -/
def send_sms (G : GSMEnv) (connected : Bool) (phone message : String) :
    Bool × List SerialWrite :=
  if !connected && !G.connectOk then (false, [])
  else
    match G.cmgfResponse with
    | none => (false, [.atCommand "AT+CMGF=1"])
    | some resp1 =>
      if !(containsStr resp1 "OK") then (false, [.atCommand "AT+CMGF=1"])
      else
        let cmgs := "AT+CMGS=\"" ++ phone ++ "\""
        match G.cmgsResponse with
        | none => (false, [.atCommand "AT+CMGF=1", .atCommand cmgs])
        | some resp2 =>
          if !(containsStr resp2 ">") then
            (false, [.atCommand "AT+CMGF=1", .atCommand cmgs])
          else
            (containsStr G.finalResponse "OK" ||
               containsStr G.finalResponse "+CMGS",
             [.atCommand "AT+CMGF=1", .atCommand cmgs,
              .payload (message ++ ctrlZ)])

/-- gsm_module.py format_unauthorized_access_sms (lines 206-214); the
strftime and float renderings are supplied as already-formatted strings
(they are produced by the Python runtime).  The body is sliced to 160
characters: `return message[:160]`. -/
def format_unauthorized_access_sms
    (vehicleReg timeStr latStr lngStr : String) : String :=
  takeChars ("ALERT: Unauthorized access attempt on vehicle " ++ vehicleReg ++
    " at " ++ timeStr ++ ". Location: " ++ latStr ++ ", " ++ lngStr ++
    ". Engine has been disabled.") 160

/-- gsm_module.py format_engine_status_sms (lines 217-224). -/
def format_engine_status_sms
    (vehicleReg : String) (enabled : Bool) (userName : String) : String :=
  takeChars ("Vehicle " ++ vehicleReg ++ " engine has been " ++
    (if enabled then "enabled" else "disabled") ++ " by " ++ userName ++
    ".") 160

/-- a 300-character message body, used to exercise the SMS length limit. -/
def msg300 : String := String.mk (List.replicate 300 'a')

/-- a transport environment in which every serial exchange succeeds. -/
def goodGSMEnv : GSMEnv :=
  { connectOk := true
    cmgfResponse := some "OK"
    cmgsResponse := some "> "
    finalResponse := "OK" }

/-- Environment of external collaborators for the facial-recognition system
and the authentication coordinator, parametric in the image type:
 - detectFaces, extractEncoding: the OpenCV cascade detection and the
   crop/resize/equalize encoding step (facial_recognition.py lines 38-80);
 - dist: the numpy Euclidean norm of the elementwise difference of two
   equal-shape encodings (line 202);
 - tolerance: settings.HARDWARE_CONFIG RECOGNITION_TOLERANCE, a value in
   [0,1] per the repository's own tests;
 - authTimeout: settings.HARDWARE_CONFIG AUTHENTICATION_TIMEOUT seconds;
 - vehicles, users: the Django ORM lookups by primary key;
 - authorizedUsers: the ids of User rows with this vehicle and
   is_authorized_driver True, in query order (lines 139-142);
 - storedEncoding: the pickled encoding file user_id.pkl when it exists;
 - gpsConnect, gpsData: the GPS module connect() and read_gps_data();
 - cameraCapture: capture_from_camera()'s result;
 - fmtTime, fmtCoord: the Python strftime and 6-decimal float renderings
   used when building the alert SMS. -/
structure Env (Image : Type) where
  detectFaces : Image → List FaceRect
  extractEncoding : Image → FaceRect → Encoding
  dist : Encoding → Encoding → ℚ
  tolerance : ℚ
  authTimeout : ℚ
  vehicles : VehicleId → Option Vehicle
  users : UserId → Option User
  authorizedUsers : VehicleId → List UserId
  storedEncoding : UserId → Option Encoding
  gpsConnect : Bool
  gpsData : Option Location
  cameraCapture : Option Image
  fmtTime : ℚ → String
  fmtCoord : ℚ → String

/-- facial_recognition.py load_authorized_encodings (lines 124-151):
return the empty map when the vehicle does not exist, otherwise pair each
authorized user id with its stored encoding, skipping users whose encoding
file is absent. -/
def load_authorized_encodings {Image : Type} (E : Env Image)
    (vid : VehicleId) : List (UserId × Encoding) :=
  match E.vehicles vid with
  | none => []
  | some _ =>
    (E.authorizedUsers vid).filterMap fun u =>
      (E.storedEncoding u).map fun e => (u, e)

/-- Python max(faces, key=lambda f: f[2]*f[3]) (line 178): first maximal
area wins ties, None on the empty list. -/
def largestFace : List FaceRect → Option FaceRect
  | [] => none
  | f :: fs =>
    some (fs.foldl (fun best g => if g.w * g.h > best.w * best.h then g else best) f)

/-- One iteration of the comparison loop (facial_recognition.py lines
195-209): skip shape-mismatched candidates, otherwise keep the candidate
whenever its distance is strictly below the best so far.  The accumulator
is (best_match_user, best_confidence) with `none` in the second component
standing for the initial float('inf'), which every finite distance
undercuts. -/
def matchStep (dist : Encoding → Encoding → ℚ) (probe : Encoding)
    (acc : Option UserId × Option ℚ) (cand : UserId × Encoding) :
    Option UserId × Option ℚ :=
  if cand.2.shape ≠ probe.shape then acc
  else
    let diff := dist probe cand.2
    match acc.2 with
    | none => (some cand.1, some diff)
    | some best => if diff < best then (some cand.1, some diff) else acc

/-- Result of authenticate_face: the tuple (is_authenticated, user_id,
confidence, face_image), with the extracted face image abstracted to
whether one was returned. -/
structure AuthFaceResult where
  isAuthenticated : Bool
  userId : Option UserId
  confidence : ℚ
  faceImage : Bool
deriving DecidableEq, Repr

/-- facial_recognition.py authenticate_face (lines 153-220), transcribed:
missing image or no detected face fails with confidence 0 and no face
image; an empty authorized-encoding map fails with confidence 0 but with
the extracted face image; otherwise the comparison loop runs over the
encodings and the attempt is authenticated exactly when the normalized
confidence reaches the configured tolerance (line 215) — the code places
no condition on best_match_user. -/
def authenticate_face {Image : Type} (E : Env Image)
    (image : Option Image) (vid : VehicleId) : AuthFaceResult :=
  match image with
  | none => ⟨false, none, 0, false⟩
  | some img =>
    match largestFace (E.detectFaces img) with
    | none => ⟨false, none, 0, false⟩
    | some rect =>
      let probe := E.extractEncoding img rect
      let encs := load_authorized_encodings E vid
      if encs.isEmpty then ⟨false, none, 0, true⟩
      else
        let best := encs.foldl (matchStep E.dist probe) (none, none)
        let conf := normConfidence best.2
        ⟨decide (E.tolerance ≤ conf), best.1, conf, true⟩

/-- Observable side effects of one coordinator run on the external
collaborators, in program order: the AuthenticationLog row (user reference,
status string, confidence), the relay actuation with its returned status,
the vehicle.save of engine_enabled, the VehicleEvent row, the Alert row,
and the SMS send. -/
inductive Effect
  | authLog (user : Option UserId) (status : String) (confidence : ℚ)
  | relayEnable (ok : Bool)
  | relayDisable (ok : Bool)
  | vehicleSave (engineEnabled : Bool)
  | vehicleEvent (eventType : String)
  | alertCreate (alertType : String)
  | smsSend (phone : String) (body : String)
deriving DecidableEq, Repr

/-- Process-local state of HardwareAuthenticationService: the
last_failed_auth dict (as an association list) and the relay's tracked
engine state. -/
structure SvcState where
  lastFailedAuth : List (VehicleId × ℚ)
  relayState : Bool
deriving DecidableEq, Repr

/-- Dict lookup in last_failed_auth. -/
def lookupLockout : List (VehicleId × ℚ) → VehicleId → Option ℚ
  | [], _ => none
  | (k, t) :: rest, vid => if k = vid then some t else lookupLockout rest vid

/-- Dict assignment last_failed_auth[vid] = now (authentication_service.py
line 294). -/
def setLockout (l : List (VehicleId × ℚ)) (vid : VehicleId) (now : ℚ) :
    List (VehicleId × ℚ) :=
  (vid, now) :: l.filter (fun p => p.1 ≠ vid)

/-- Dict deletion del last_failed_auth[vid] (line 134). -/
def delLockout (l : List (VehicleId × ℚ)) (vid : VehicleId) :
    List (VehicleId × ℚ) :=
  l.filter (fun p => p.1 ≠ vid)

/-- authentication_service.py _is_locked_out (lines 280-290): locked out
iff a lockout timestamp exists for the vehicle and strictly less than
authTimeout seconds have elapsed since it. -/
def is_locked_out {Image : Type} (E : Env Image) (st : SvcState)
    (now : ℚ) (vid : VehicleId) : Bool :=
  match lookupLockout st.lastFailedAuth vid with
  | none => false
  | some t => decide (now - t < E.authTimeout)

/-- Terminal outcomes of authenticate_driver.  The four early returns
carry only a message dict in the source; success carries the matched user
and confidence; crashed models the uncaught AttributeError raised in the
success branch when is_authenticated is True but no User row was fetched
(authenticated_user.get_full_name() on None, line 128). -/
inductive DriverOutcome
  | vehicleNotFound
  | lockedOut (lockedUntil : Option ℚ)
  | captureFailed
  | noImage
  | success (userId : UserId) (confidence : ℚ)
  | unauthorized (confidence : ℚ)
  | crashed
deriving DecidableEq, Repr

/-- authentication_service.py authenticate_driver (lines 32-189),
transcribed in program order: vehicle lookup, lockout gate, best-effort
GPS read, image acquisition (camera capture only when requested and no
image was supplied), facial recognition, the user fetch that downgrades
is_authenticated when the matched id has no User row (the Python truthiness
test `is_authenticated and user_id` also fails on id 0), the
AuthenticationLog row, and then the success or failure branch with its
relay actuation, vehicle save, lockout update, event/alert rows and SMS.
The relayEnThrows/relayDisThrows arguments model whether the external GPIO
write raises inside the corresponding relay call on this attempt.
Returns (outcome, new state, effects in program order). -/
def authenticate_driver {Image : Type} (E : Env Image) (st : SvcState)
    (now : ℚ) (vid : VehicleId) (image : Option Image)
    (captureFromCamera : Bool) (relayEnThrows relayDisThrows : Bool) :
    DriverOutcome × SvcState × List Effect :=
  match E.vehicles vid with
  | none => (.vehicleNotFound, st, [])
  | some vehicle =>
    if is_locked_out E st now vid then
      (.lockedOut (lookupLockout st.lastFailedAuth vid), st, [])
    else
      let currentLocation : Option Location :=
        if E.gpsConnect then E.gpsData else none
      if captureFromCamera && image.isNone && E.cameraCapture.isNone then
        (.captureFailed, st, [])
      else
        let acquired : Option Image :=
          if captureFromCamera && image.isNone then E.cameraCapture
          else image
        match acquired with
        | none => (.noImage, st, [])
        | some img =>
          let r := authenticate_face E (some img) vid
          let userTruthy : Bool :=
            match r.userId with
            | none => false
            | some u => decide (u ≠ 0)
          let fetched : Option (UserId × User) :=
            if r.isAuthenticated && userTruthy then
              match r.userId with
              | some u => (E.users u).map (fun usr => (u, usr))
              | none => none
            else none
          let isAuth : Bool :=
            if r.isAuthenticated && userTruthy && fetched.isNone then false
            else r.isAuthenticated
          let logEff := Effect.authLog (fetched.map Prod.fst)
            (if isAuth then "success" else "unauthorized") r.confidence
          if isAuth then
            let relayRes :=
              RelayController.enable_engine relayEnThrows st.relayState
            match fetched with
            | none =>
              (.crashed, { st with relayState := relayRes.2 },
               [logEff, .relayEnable relayRes.1, .vehicleSave true])
            | some (u, _usr) =>
              (.success u r.confidence,
               { lastFailedAuth := delLockout st.lastFailedAuth vid,
                 relayState := relayRes.2 },
               [logEff, .relayEnable relayRes.1, .vehicleSave true,
                .vehicleEvent "auth_success"])
          else
            let relayRes :=
              RelayController.disable_engine relayDisThrows st.relayState
            let smsEffs : List Effect :=
              match currentLocation with
              | none => []
              | some loc =>
                if vehicle.ownerPhone ≠ "" then
                  [.smsSend vehicle.ownerPhone
                    (format_unauthorized_access_sms vehicle.registration
                      (E.fmtTime now) (E.fmtCoord loc.latitude)
                      (E.fmtCoord loc.longitude))]
                else []
            (.unauthorized r.confidence,
             { lastFailedAuth := setLockout st.lastFailedAuth vid now,
               relayState := relayRes.2 },
             [logEff, .relayDisable relayRes.1, .vehicleSave false,
              .vehicleEvent "unauthorized_access",
              .alertCreate "unauthorized_access"] ++ smsEffs)

/-- Predicate on effects: is this the AuthenticationLog row. -/
def Effect.isAuthLog : Effect → Bool
  | .authLog _ _ _ => true
  | _ => false

/-- Outcomes in which the attempt reached the match decision (the facial
recognition ran and an AuthenticationLog row was created). -/
def DriverOutcome.reachedMatch : DriverOutcome → Bool
  | .success _ _ => true
  | .unauthorized _ => true
  | .crashed => true
  | _ => false

/-- a 1x1 test encoding. -/
def encA : Encoding := ⟨1, 1, [0]⟩

/-- a 2x2 test encoding, shape-mismatched with encA. -/
def encB : Encoding := ⟨2, 2, [0, 0, 0, 0]⟩

/-- a concrete environment over a unit image type: vehicle 1 exists with
an owner phone, user 7 is its authorized driver with a stored encoding of
the same shape the extractor produces, every distance is 0, and the
tolerance is 1/2, so a supplied image authenticates as user 7. -/
def baseEnv : Env Unit :=
  { detectFaces := fun _ => [⟨0, 0, 10, 10⟩]
    extractEncoding := fun _ _ => encA
    dist := fun _ _ => 0
    tolerance := 1/2
    authTimeout := 30
    vehicles := fun v =>
      if v = 1 then some ⟨"KAA 001A", "+254700000001"⟩ else none
    users := fun u => if u = 7 then some ⟨"Jane Doe"⟩ else none
    authorizedUsers := fun _ => [7]
    storedEncoding := fun u => if u = 7 then some encA else none
    gpsConnect := false
    gpsData := none
    cameraCapture := none
    fmtTime := fun _ => "2026-10-12 00:00:00"
    fmtCoord := fun _ => "0.000000" }

/-- baseEnv with tolerance 0 (a configured value the repository's own
tests allow) and a stored encoding whose shape mismatches the probe, so
the comparison loop skips its only candidate. -/
def skipAllEnv : Env Unit :=
  { baseEnv with
    tolerance := 0
    storedEncoding := fun u => if u = 7 then some encB else none }

/-- baseEnv with no enrolled encodings: the AuthorizationSet loaded for
vehicle 1 is empty. -/
def emptyAuthEnv : Env Unit :=
  { baseEnv with storedEncoding := fun _ => none }

/-- baseEnv with no User row behind the matched id: the store has no user
record at all, while user 7 still has a stored encoding. -/
def ghostUserEnv : Env Unit :=
  { baseEnv with users := fun _ => none }

/-- Abbreviation for the comparison loop's final accumulator when the
detected faces are f :: fs and the loaded encodings are l: the probe is
the encoding extracted at the largest face, and the loop folds matchStep
over l from the initial (None, infinity) accumulator. -/
def bestMatch {Image : Type} (E : Env Image) (img : Image)
    (f : FaceRect) (fs : List FaceRect) (l : List (UserId × Encoding)) :
    Option UserId × Option ℚ :=
  l.foldl
    (matchStep E.dist (E.extractEncoding img
      (fs.foldl (fun best g => if g.w * g.h > best.w * best.h then g else best) f)))
    (none, none)

end VehicleSecurity

namespace VehicleSecurity

/-- Helper: an attempt whose image has no detectable face fails with
confidence 0 and no face image (facial_recognition.py lines 174-175). -/
theorem authenticate_face_noFace {Image : Type} (E : Env Image)
    (img : Image) (vid : VehicleId) (hf : E.detectFaces img = []) :
    authenticate_face E (some img) vid = ⟨false, none, 0, false⟩ := by
  unfold authenticate_face largestFace
  dsimp only
  rw [hf]

/-- Helper: an attempt with a detected face but an empty loaded encoding
map fails with confidence 0 (facial_recognition.py lines 187-189). -/
theorem authenticate_face_emptySet {Image : Type} (E : Env Image)
    (img : Image) (vid : VehicleId) (f : FaceRect) (fs : List FaceRect)
    (hf : E.detectFaces img = f :: fs)
    (he : load_authorized_encodings E vid = []) :
    authenticate_face E (some img) vid = ⟨false, none, 0, true⟩ := by
  unfold authenticate_face largestFace
  dsimp only
  rw [hf, he]
  rfl

/-- Helper: with a detected face and a nonempty encoding map, the result
of authenticate_face is the comparison loop's outcome: authenticated iff
the tolerance is at most the normalized confidence of the best distance,
with the loop's best user as the returned identity. -/
theorem authenticate_face_cons {Image : Type} (E : Env Image)
    (img : Image) (vid : VehicleId) (f : FaceRect) (fs : List FaceRect)
    (e : UserId × Encoding) (es : List (UserId × Encoding))
    (hf : E.detectFaces img = f :: fs)
    (he : load_authorized_encodings E vid = e :: es) :
    authenticate_face E (some img) vid =
      ⟨decide (E.tolerance ≤ normConfidence (bestMatch E img f fs (e :: es)).2),
       (bestMatch E img f fs (e :: es)).1,
       normConfidence (bestMatch E img f fs (e :: es)).2, true⟩ := by
  unfold authenticate_face largestFace bestMatch
  dsimp only
  rw [hf, he]
  rfl

/-- Helper: the comparison loop pairs its best user with its best distance:
starting from an accumulator whose components are none together, the fold
ends with best_match_user = None exactly when best_confidence is still the
initial infinity. -/
theorem foldl_matchStep_none_iff (d : Encoding → Encoding → ℚ)
    (p : Encoding) (l : List (UserId × Encoding))
    (acc : Option UserId × Option ℚ) (h : acc.1 = none ↔ acc.2 = none) :
    ((l.foldl (matchStep d p) acc).1 = none ↔
      (l.foldl (matchStep d p) acc).2 = none) := by
  induction l generalizing acc with
  | nil => exact h
  | cons c cs ih =>
    apply ih
    obtain ⟨a1, a2⟩ := acc
    unfold matchStep
    split
    · exact h
    · cases a2 with
      | none => simp
      | some best =>
        dsimp only
        split
        · simp
        · exact h

end VehicleSecurity

namespace VehicleSecurity

/-- CLAIM C9: the relay controller initializes Disabled, and enable/disable
are idempotent: from every tracked state, calling enable twice leaves the
state Enabled and returns True both times, and calling disable twice leaves
the state Disabled and returns True both times (simulated controller, and
the real controller when the GPIO write does not raise). -/
theorem C9_relay_idempotent :
    RelayController.initState = false ∧
    (∀ s : Bool,
      SimulatedRelayController.enable_engine s = (true, true) ∧
      SimulatedRelayController.enable_engine
        (SimulatedRelayController.enable_engine s).2 = (true, true) ∧
      SimulatedRelayController.disable_engine s = (true, false) ∧
      SimulatedRelayController.disable_engine
        (SimulatedRelayController.disable_engine s).2 = (true, false)) ∧
    (∀ s : Bool,
      RelayController.enable_engine false s = (true, true) ∧
      RelayController.enable_engine false
        (RelayController.enable_engine false s).2 = (true, true) ∧
      RelayController.disable_engine false s = (true, false) ∧
      RelayController.disable_engine false
        (RelayController.disable_engine false s).2 = (true, false)) := by
  refine ⟨rfl, ?_, ?_⟩ <;> intro s <;> cases s <;> simp [SimulatedRelayController.enable_engine,
    SimulatedRelayController.disable_engine, RelayController.enable_engine,
    RelayController.disable_engine]

/-- CLAIM C7 counterexample: strict monotonicity of the confidence formula
fails: distances 10000 and 20000 are distinct yet both normalize to
confidence 0 because of the clamp at 0. -/
theorem C7_counterexample :
    (10000 : ℚ) < 20000 ∧
    normalized_confidence 10000 = normalized_confidence 20000 := by
  constructor
  · norm_num
  · show max 0 (1 - (10000 : ℚ) / 10000) = max 0 (1 - (20000 : ℚ) / 10000)
    norm_num

/-- CLAIM C7 (amended): for distances 0 ≤ d1 < d2 the confidence for d1 is
never less than for d2, and is strictly greater whenever d1 < 10000 (below
the clamp point); and for every non-negative distance the confidence lies
in [0, 1]. -/
theorem C7_confidence_monotone (d1 d2 : ℚ) (h0 : 0 ≤ d1) (h12 : d1 < d2) :
    (normalized_confidence d2 ≤ normalized_confidence d1 ∧
      (d1 < 10000 → normalized_confidence d2 < normalized_confidence d1)) ∧
    (∀ d : ℚ, 0 ≤ d →
      0 ≤ normalized_confidence d ∧ normalized_confidence d ≤ 1) := by
  unfold normalized_confidence
  refine ⟨⟨?_, ?_⟩, ?_⟩
  · exact max_le_max le_rfl (by linarith)
  · intro hlt
    have hpos : 0 < 1 - d1 / 10000 := by linarith
    have hmax : max 0 (1 - d1 / 10000) = 1 - d1 / 10000 :=
      max_eq_right hpos.le
    rw [hmax]
    exact max_lt hpos (by linarith)
  · intro d hd
    constructor
    · exact le_max_left _ _
    · exact max_le (by norm_num) (by linarith)

/-- CLAIM C6 counterexample: a 300-character body passed directly to the
GSM module's send operation is transmitted to the transport unchanged
(300 characters plus the Ctrl+Z terminator), not truncated to 160: send_sms
performs no truncation and even reports success. -/
theorem C6_counterexample :
    (send_sms goodGSMEnv true "+254712345678" msg300).1 = true ∧
    (send_sms goodGSMEnv true "+254712345678" msg300).2 =
      [SerialWrite.atCommand "AT+CMGF=1",
       SerialWrite.atCommand "AT+CMGS=\"+254712345678\"",
       SerialWrite.payload (msg300 ++ ctrlZ)] ∧
    160 < msg300.length := by
  refine ⟨rfl, rfl, ?_⟩
  show 160 < (List.replicate 300 'a').length
  rw [List.length_replicate]
  norm_num

/-- CLAIM C6 (amended): truncation to 160 characters happens in the SMS
formatting helpers, before send is called: every body built by
format_unauthorized_access_sms or format_engine_status_sms is at most 160
characters, while send_sms transmits its message argument unchanged (its
only payload write is the message followed by Ctrl+Z). -/
theorem C6_sms_truncation
    (vehicleReg timeStr latStr lngStr userName : String) (enabled : Bool) :
    (format_unauthorized_access_sms vehicleReg timeStr latStr lngStr).length
      ≤ 160 ∧
    (format_engine_status_sms vehicleReg enabled userName).length ≤ 160 ∧
    (∀ (G : GSMEnv) (connected : Bool) (phone message d : String),
      SerialWrite.payload d ∈ (send_sms G connected phone message).2 →
      d = message ++ ctrlZ) := by
  have hlen : ∀ (s : String) (n : Nat), (takeChars s n).length ≤ n := by
    intro s n
    have h : (takeChars s n).length = (s.data.take n).length := rfl
    rw [h, List.length_take]
    exact min_le_left _ _
  refine ⟨hlen _ _, hlen _ _, ?_⟩
  intro G connected phone message d hmem
  unfold send_sms at hmem
  split at hmem
  · simp at hmem
  · split at hmem
    · simp at hmem
    · split at hmem
      · simp at hmem
      · split at hmem
        · simp at hmem
        · split at hmem
          · simp at hmem
          · simp at hmem
            exact hmem

/-- CLAIM C6 witness for the amended theorem: concrete instantiation, with
the payload-membership hypothesis discharged on a concrete successful
send. -/
theorem C6_sms_truncation_witness :
    (format_unauthorized_access_sms "KAA 001A" "2026-10-12 00:00:00"
        "-1.286389" "36.817223").length ≤ 160 ∧
    "hello" ++ ctrlZ = "hello" ++ ctrlZ := by
  refine ⟨(C6_sms_truncation "KAA 001A" "2026-10-12 00:00:00" "-1.286389"
    "36.817223" "Jane Doe" true).1, ?_⟩
  exact (C6_sms_truncation "KAA 001A" "2026-10-12 00:00:00" "-1.286389"
    "36.817223" "Jane Doe" true).2.2 goodGSMEnv true "+254712345678"
    "hello" ("hello" ++ ctrlZ) (by decide)

/-- CLAIM C7 witness: instantiation at d1 = 5000, d2 = 6000. -/
theorem C7_confidence_monotone_witness :
    ((normalized_confidence 6000 ≤ normalized_confidence 5000 ∧
      ((5000 : ℚ) < 10000 →
        normalized_confidence 6000 < normalized_confidence 5000)) ∧
    (∀ d : ℚ, 0 ≤ d →
      0 ≤ normalized_confidence d ∧ normalized_confidence d ≤ 1)) :=
  C7_confidence_monotone 5000 6000 (by norm_num) (by norm_num)

/-- CLAIM C1 counterexample: with tolerance 0 (a value in [0,1], which the
repository's own settings test accepts) and an enrolled encoding whose
shape mismatches the probe, the comparison loop skips its every candidate,
the confidence is 0, and authenticate_face still reports the attempt as
authenticated while returning no matched identity — the claimed
equivalence with a found candidate fails. -/
theorem C1_counterexample :
    (authenticate_face skipAllEnv (some ()) 1).isAuthenticated = true ∧
    (authenticate_face skipAllEnv (some ()) 1).userId = none ∧
    0 ≤ skipAllEnv.tolerance ∧ skipAllEnv.tolerance ≤ 1 := by
  refine ⟨by decide, by decide, ?_, ?_⟩ <;>
    simp [skipAllEnv, baseEnv]

/-- CLAIM C1 (amended): for every attempt supplying an image with a
detectable face against a nonempty loaded AuthorizationSet, the Face
Matcher reports the attempt as authenticated if and only if the normalized
confidence is at least the configured tolerance; and whenever the
tolerance is positive, an authenticated attempt does return a matched
identity (so no attempt whose comparison loop skipped every candidate is
authenticated).  The identity condition genuinely requires a positive
tolerance: at tolerance 0 the code authenticates with identity None. -/
theorem C1_authenticated_iff_tolerance {Image : Type} (E : Env Image)
    (img : Image) (vid : VehicleId)
    (hface : E.detectFaces img ≠ [])
    (hencs : load_authorized_encodings E vid ≠ []) :
    ((authenticate_face E (some img) vid).isAuthenticated = true ↔
      E.tolerance ≤ (authenticate_face E (some img) vid).confidence) ∧
    (0 < E.tolerance →
      (authenticate_face E (some img) vid).isAuthenticated = true →
      (authenticate_face E (some img) vid).userId ≠ none) := by
  cases hf : E.detectFaces img with
  | nil => exact absurd hf hface
  | cons f fs =>
    cases he : load_authorized_encodings E vid with
    | nil => exact absurd he hencs
    | cons e es =>
      rw [authenticate_face_cons E img vid f fs e es hf he]
      constructor
      · exact decide_eq_true_iff
      · intro htol hauth
        dsimp only at hauth ⊢
        intro hun
        unfold bestMatch at hauth hun
        have hsnd := (foldl_matchStep_none_iff E.dist
          (E.extractEncoding img
            (fs.foldl (fun best g =>
              if g.w * g.h > best.w * best.h then g else best) f))
          (e :: es) (none, none) (by simp)).mp hun
        rw [hsnd] at hauth
        have hle : E.tolerance ≤ normConfidence none :=
          of_decide_eq_true hauth
        simp only [normConfidence] at hle
        exact absurd (lt_of_lt_of_le htol hle) (lt_irrefl _)

/-- CLAIM C1 witness for the amended theorem: the base environment, where
vehicle 1 has one enrolled matching-shape encoding for user 7, distance 0
and tolerance 1/2, authenticates user 7. -/
theorem C1_authenticated_iff_tolerance_witness :
    (((authenticate_face baseEnv (some ()) 1).isAuthenticated = true ↔
      baseEnv.tolerance ≤ (authenticate_face baseEnv (some ()) 1).confidence) ∧
    (0 < baseEnv.tolerance →
      (authenticate_face baseEnv (some ()) 1).isAuthenticated = true →
      (authenticate_face baseEnv (some ()) 1).userId ≠ none)) :=
  C1_authenticated_iff_tolerance baseEnv () 1 (by decide)
    (by decide)

/-- CLAIM C2: for every vehicle whose loaded AuthorizationSet is empty,
authentication never succeeds: authenticate_face reports not authenticated
for every image, and authenticate_driver never returns the Success
outcome, regardless of the supplied image, the camera flag, the state and
the configured tolerance. -/
theorem C2_empty_authset_never_success {Image : Type} (E : Env Image)
    (st : SvcState) (now : ℚ) (vid : VehicleId) (image : Option Image)
    (captureFromCamera relayEnThrows relayDisThrows : Bool)
    (hempty : load_authorized_encodings E vid = []) :
    (∀ im : Option Image,
      (authenticate_face E im vid).isAuthenticated = false) ∧
    (∀ (u : UserId) (c : ℚ),
      (authenticate_driver E st now vid image captureFromCamera
        relayEnThrows relayDisThrows).1 ≠
        DriverOutcome.success u c) := by
  have hface : ∀ im : Option Image,
      (authenticate_face E im vid).isAuthenticated = false := by
    intro im
    cases im with
    | none => rfl
    | some img =>
      cases hf : E.detectFaces img with
      | nil => rw [authenticate_face_noFace E img vid hf]
      | cons f fs => rw [authenticate_face_emptySet E img vid f fs hf hempty]
  refine ⟨hface, ?_⟩
  intro u c
  unfold authenticate_driver
  cases hveh : E.vehicles vid with
  | none => simp
  | some vehicle =>
    dsimp only
    split
    · simp
    · split
      · simp
      · split
        · simp
        · rename_i img heq
          simp [hface (some img)]

/-- CLAIM C2 witness: the concrete environment with no stored encodings
for vehicle 1. -/
theorem C2_empty_authset_never_success_witness :
    ((∀ im : Option Unit,
      (authenticate_face emptyAuthEnv im 1).isAuthenticated = false) ∧
    (∀ (u : UserId) (c : ℚ),
      (authenticate_driver emptyAuthEnv ⟨[], false⟩ 0 1 (some ()) false
        false false).1 ≠ DriverOutcome.success u c)) :=
  C2_empty_authset_never_success emptyAuthEnv ⟨[], false⟩ 0 1 (some ())
    false false false rfl

/-- Helper: deleting a vehicle's lockout entry removes it from the dict. -/
theorem lookup_delLockout (l : List (VehicleId × ℚ)) (vid : VehicleId) :
    lookupLockout (delLockout l vid) vid = none := by
  induction l with
  | nil => rfl
  | cons p ps ih =>
    unfold delLockout at ih ⊢
    rw [List.filter_cons]
    by_cases h : p.1 = vid
    · simpa [h] using ih
    · simpa [h, lookupLockout] using ih

/-- Helper: assigning a vehicle's lockout entry makes it the looked-up
value. -/
theorem lookup_setLockout (l : List (VehicleId × ℚ)) (vid : VehicleId)
    (now : ℚ) : lookupLockout (setLockout l vid now) vid = some now := by
  unfold setLockout lookupLockout
  rw [if_pos rfl]

/-- CLAIM C3: an attempt on a vehicle whose lockout entry is younger than
the lockout window returns the locked-out rejection immediately, with no
effects (no audit record) and the state unchanged, so the stored lockout
timestamp is not reset. -/
theorem C3_lockout_rejects_immediately {Image : Type} (E : Env Image)
    (st : SvcState) (now t : ℚ) (vid : VehicleId) (v : Vehicle)
    (image : Option Image) (captureFromCamera relayEnThrows relayDisThrows : Bool)
    (hveh : E.vehicles vid = some v)
    (hlock : lookupLockout st.lastFailedAuth vid = some t)
    (hwin : now - t < E.authTimeout) :
    authenticate_driver E st now vid image captureFromCamera
      relayEnThrows relayDisThrows =
      (DriverOutcome.lockedOut (some t), st, []) := by
  unfold authenticate_driver
  rw [hveh]
  dsimp only
  have hlo : is_locked_out E st now vid = true := by
    unfold is_locked_out
    rw [hlock]
    simpa using hwin
  rw [hlo, hlock]
  rfl

/-- CLAIM C3 witness: vehicle 1 failed at time 100, a second attempt at
time 110 with the 30-second window is rejected without side effects. -/
theorem C3_lockout_rejects_immediately_witness :
    authenticate_driver baseEnv ⟨[(1, 100)], false⟩ 110 1 (some ()) false
      false false =
      (DriverOutcome.lockedOut (some 100), ⟨[(1, 100)], false⟩, []) :=
  C3_lockout_rejects_immediately baseEnv ⟨[(1, 100)], false⟩ 110 100 1
    ⟨"KAA 001A", "+254700000001"⟩ (some ()) false false false rfl rfl
    (by rw [show baseEnv.authTimeout = (30 : ℚ) from rfl]; norm_num)

/-- CLAIM C4: every successful authentication deletes the vehicle's
lockout entry, and every Unauthorized authentication overwrites the
vehicle's lockout entry with the current time, so a failure after a
success starts a fresh lockout window. -/
theorem C4_lockout_update {Image : Type} (E : Env Image) (st : SvcState)
    (now : ℚ) (vid : VehicleId) (image : Option Image)
    (captureFromCamera relayEnThrows relayDisThrows : Bool) :
    (∀ (u : UserId) (c : ℚ),
      (authenticate_driver E st now vid image captureFromCamera
        relayEnThrows relayDisThrows).1 = DriverOutcome.success u c →
      lookupLockout
        (authenticate_driver E st now vid image captureFromCamera
          relayEnThrows relayDisThrows).2.1.lastFailedAuth vid = none) ∧
    (∀ c : ℚ,
      (authenticate_driver E st now vid image captureFromCamera
        relayEnThrows relayDisThrows).1 = DriverOutcome.unauthorized c →
      lookupLockout
        (authenticate_driver E st now vid image captureFromCamera
          relayEnThrows relayDisThrows).2.1.lastFailedAuth vid = some now) := by
  unfold authenticate_driver
  cases hveh : E.vehicles vid with
  | none => simp
  | some vehicle =>
    dsimp only
    split
    · simp
    · split
      · simp
      · split
        · simp
        · rename_i img heq
          split <;> (try split) <;> (try split) <;> (try split) <;>
            simp [lookup_delLockout, lookup_setLockout]

/-- Helper: concrete evaluation of the face matcher in the base
environment: the single candidate matches at distance 0, so the attempt
authenticates user 7 with confidence 1. -/
theorem baseEnv_face :
    authenticate_face baseEnv (some ()) 1 = ⟨true, some 7, 1, true⟩ := by
  have h := authenticate_face_cons baseEnv () 1 ⟨0, 0, 10, 10⟩ []
    (7, encA) [] rfl rfl
  rw [h]
  have hbm : bestMatch baseEnv () ⟨0, 0, 10, 10⟩ [] [(7, encA)] =
      (some 7, some 0) := rfl
  rw [hbm]
  have hconf : normConfidence (some 0) = 1 := by
    unfold normConfidence normalized_confidence
    norm_num
  rw [hconf]
  have htol : baseEnv.tolerance = 1 / 2 := rfl
  simp [htol]
  norm_num

/-- Helper: the face matcher behaves identically in the environment whose
User store is empty, since authenticate_face never consults it. -/
theorem ghostUserEnv_face :
    authenticate_face ghostUserEnv (some ()) 1 = ⟨true, some 7, 1, true⟩ := by
  have h := authenticate_face_cons ghostUserEnv () 1 ⟨0, 0, 10, 10⟩ []
    (7, encA) [] rfl rfl
  rw [h]
  have hbm : bestMatch ghostUserEnv () ⟨0, 0, 10, 10⟩ [] [(7, encA)] =
      (some 7, some 0) := rfl
  rw [hbm]
  have hconf : normConfidence (some 0) = 1 := by
    unfold normConfidence normalized_confidence
    norm_num
  rw [hconf]
  have htol : ghostUserEnv.tolerance = 1 / 2 := rfl
  simp [htol]
  norm_num

/-- Helper: concrete evaluation of a full successful attempt in the base
environment. -/
theorem baseEnv_driver :
    authenticate_driver baseEnv ⟨[], false⟩ 0 1 (some ()) false false false =
      (.success 7 1, ⟨[], true⟩,
       [.authLog (some 7) "success" 1, .relayEnable true, .vehicleSave true,
        .vehicleEvent "auth_success"]) := by
  have hv : baseEnv.vehicles 1 = some ⟨"KAA 001A", "+254700000001"⟩ := rfl
  have hu : baseEnv.users 7 = some ⟨"Jane Doe"⟩ := rfl
  simp [authenticate_driver, hv, hu, baseEnv_face, is_locked_out,
    lookupLockout, delLockout, RelayController.enable_engine]

/-- Helper: the same successful attempt when both relay calls would throw:
the outcome and the audit record are unchanged, only the relay effect
reports failure and the tracked relay state stays down. -/
theorem baseEnv_driver_throws :
    authenticate_driver baseEnv ⟨[], false⟩ 0 1 (some ()) false true true =
      (.success 7 1, ⟨[], false⟩,
       [.authLog (some 7) "success" 1, .relayEnable false, .vehicleSave true,
        .vehicleEvent "auth_success"]) := by
  have hv : baseEnv.vehicles 1 = some ⟨"KAA 001A", "+254700000001"⟩ := rfl
  have hu : baseEnv.users 7 = some ⟨"Jane Doe"⟩ := rfl
  simp [authenticate_driver, hv, hu, baseEnv_face, is_locked_out,
    lookupLockout, delLockout, RelayController.enable_engine]

/-- Helper: concrete evaluation of an attempt whose matched identity has
no User row: the attempt is downgraded to the full unauthorized outcome,
with the audit record carrying no user, the engine disabled and the
lockout entry stamped with the current time 0. -/
theorem ghostUserEnv_driver :
    authenticate_driver ghostUserEnv ⟨[], false⟩ 0 1 (some ()) false
        false false =
      (.unauthorized 1, ⟨[(1, 0)], false⟩,
       [.authLog none "unauthorized" 1, .relayDisable true,
        .vehicleSave false, .vehicleEvent "unauthorized_access",
        .alertCreate "unauthorized_access"]) := by
  have hv : ghostUserEnv.vehicles 1 = some ⟨"KAA 001A", "+254700000001"⟩ :=
    rfl
  have hu : ghostUserEnv.users 7 = none := rfl
  have hg : ghostUserEnv.gpsConnect = false := rfl
  simp [authenticate_driver, hv, hu, hg, ghostUserEnv_face, is_locked_out,
    lookupLockout, setLockout, RelayController.disable_engine]

/-- CLAIM C4 witness: in the base environment a successful attempt leaves
no lockout entry for vehicle 1, and in the environment whose matched user
has no User row the downgraded Unauthorized attempt stamps the lockout
entry with the current time 0. -/
theorem C4_lockout_update_witness :
    lookupLockout
      (authenticate_driver baseEnv ⟨[], false⟩ 0 1 (some ()) false
        false false).2.1.lastFailedAuth 1 = none ∧
    lookupLockout
      (authenticate_driver ghostUserEnv ⟨[], false⟩ 0 1 (some ()) false
        false false).2.1.lastFailedAuth 1 = some 0 :=
  ⟨(C4_lockout_update baseEnv ⟨[], false⟩ 0 1 (some ()) false false
      false).1 7 1 (by rw [baseEnv_driver]),
   (C4_lockout_update ghostUserEnv ⟨[], false⟩ 0 1 (some ()) false false
      false).2 1 (by rw [ghostUserEnv_driver])⟩

/-- CLAIM C5: every attempt that reaches the match decision creates
exactly one AuthenticationLog effect, and that effect is the very first
side effect of the attempt — in particular it precedes the relay
actuation — and this holds for every value of the relay-throw flags;
moreover the attempt's outcome does not depend on whether the relay
actuation throws, so a relay failure never aborts the attempt. -/
theorem C5_audit_record_always_written {Image : Type} (E : Env Image)
    (st : SvcState) (now : ℚ) (vid : VehicleId) (image : Option Image)
    (captureFromCamera relayEnThrows relayDisThrows : Bool) :
    (DriverOutcome.reachedMatch
        (authenticate_driver E st now vid image captureFromCamera
          relayEnThrows relayDisThrows).1 = true →
      ((authenticate_driver E st now vid image captureFromCamera
          relayEnThrows relayDisThrows).2.2.countP Effect.isAuthLog = 1 ∧
       ((authenticate_driver E st now vid image captureFromCamera
          relayEnThrows relayDisThrows).2.2.head?.map Effect.isAuthLog) =
         some true)) ∧
    (∀ b1 b2 : Bool,
      (authenticate_driver E st now vid image captureFromCamera b1 b2).1 =
      (authenticate_driver E st now vid image captureFromCamera
        relayEnThrows relayDisThrows).1) := by
  constructor
  · intro hreach
    unfold authenticate_driver at hreach ⊢
    revert hreach
    cases hveh : E.vehicles vid with
    | none => intro hreach; simp [DriverOutcome.reachedMatch] at hreach
    | some vehicle =>
      dsimp only
      split
      · intro hreach; simp [DriverOutcome.reachedMatch] at hreach
      · split
        · intro hreach; simp [DriverOutcome.reachedMatch] at hreach
        · split
          · intro hreach; simp [DriverOutcome.reachedMatch] at hreach
          · rename_i img heq
            intro hreach
            split <;> (try split) <;> (try split) <;> (try split) <;>
              (try split) <;>
              simp [Effect.isAuthLog, List.countP_append, List.countP_cons,
                List.countP_nil, List.cons_append]
  · intro b1 b2
    unfold authenticate_driver
    cases hveh : E.vehicles vid with
    | none => rfl
    | some vehicle =>
      dsimp only
      split
      · rfl
      · split
        · rfl
        · split
          · rfl
          · rename_i img heq
            split <;> (try split) <;> (try split) <;> (try split) <;> rfl

/-- CLAIM C5 witness: a concrete successful attempt reaches the match
decision; its effect list has exactly one AuthenticationLog effect, in
first position, and its outcome is stable under relay-throw flags. -/
theorem C5_audit_record_always_written_witness :
    (((authenticate_driver baseEnv ⟨[], false⟩ 0 1 (some ()) false
        true true).2.2.countP Effect.isAuthLog = 1 ∧
      ((authenticate_driver baseEnv ⟨[], false⟩ 0 1 (some ()) false
        true true).2.2.head?.map Effect.isAuthLog) = some true)) ∧
    (authenticate_driver baseEnv ⟨[], false⟩ 0 1 (some ()) false
        false false).1 =
      (authenticate_driver baseEnv ⟨[], false⟩ 0 1 (some ()) false
        true true).1 :=
  ⟨(C5_audit_record_always_written baseEnv ⟨[], false⟩ 0 1 (some ()) false
      true true).1 (by rw [baseEnv_driver_throws]; rfl),
   (C5_audit_record_always_written baseEnv ⟨[], false⟩ 0 1 (some ()) false
      true true).2 false false⟩

/-- CLAIM C8: an attempt with an unknown vehicle id, or with no image
supplied and no successful camera capture, returns a rejection outcome
distinct from Unauthorized, with the state unchanged and no effects at
all: no audit record, no alert, no lockout entry and no relay actuation. -/
theorem C8_input_errors_rejected_without_effects {Image : Type}
    (E : Env Image) (st : SvcState) (now : ℚ) (vid : VehicleId)
    (image : Option Image)
    (captureFromCamera relayEnThrows relayDisThrows : Bool) (v : Vehicle) :
    (E.vehicles vid = none →
      authenticate_driver E st now vid image captureFromCamera
        relayEnThrows relayDisThrows =
        (DriverOutcome.vehicleNotFound, st, [])) ∧
    (E.vehicles vid = some v → is_locked_out E st now vid = false →
      image = none → E.cameraCapture = none →
      authenticate_driver E st now vid image captureFromCamera
        relayEnThrows relayDisThrows =
        ((if captureFromCamera then DriverOutcome.captureFailed
          else DriverOutcome.noImage), st, [])) := by
  constructor
  · intro hveh
    unfold authenticate_driver
    rw [hveh]
  · intro hveh hlock himg hcam
    unfold authenticate_driver
    rw [hveh]
    dsimp only
    rw [hlock]
    subst himg
    rw [hcam]
    cases captureFromCamera <;> simp

/-- CLAIM C8 witness: vehicle 2 is unknown, and an attempt for vehicle 1
with no image and the camera capture failing (with capture requested) is
rejected as a capture failure — in both cases with no effects. -/
theorem C8_input_errors_rejected_without_effects_witness :
    (authenticate_driver baseEnv ⟨[], false⟩ 0 2 (some ()) false
        false false = (DriverOutcome.vehicleNotFound, ⟨[], false⟩, [])) ∧
    (authenticate_driver baseEnv ⟨[], false⟩ 0 1 none true false false =
      (DriverOutcome.captureFailed, ⟨[], false⟩, [])) := by
  constructor
  · exact (C8_input_errors_rejected_without_effects baseEnv ⟨[], false⟩ 0 2
      (some ()) false false false ⟨"KAA 001A", "+254700000001"⟩).1 rfl
  · have h := (C8_input_errors_rejected_without_effects baseEnv ⟨[], false⟩
      0 1 none true false false ⟨"KAA 001A", "+254700000001"⟩).2
      (by decide) (by decide) rfl rfl
    simpa using h

/-- CLAIM C10: when the Face Matcher reports an authenticated match but
the matched identity id has no User row in the store, the coordinator
downgrades the attempt to the full unauthorized outcome: the outcome is
Unauthorized (never Success), the audit record — the first effect — is
written with status unauthorized and no user reference, the lockout entry
is stamped with the current time, an alert is created, the relay is
commanded to disable and engine_enabled False is persisted. -/
theorem C10_missing_user_downgraded {Image : Type} (E : Env Image)
    (st : SvcState) (now : ℚ) (vid : VehicleId) (v : Vehicle) (img : Image)
    (u : UserId) (captureFromCamera relayEnThrows relayDisThrows : Bool)
    (hveh : E.vehicles vid = some v)
    (hlock : is_locked_out E st now vid = false)
    (hauth : (authenticate_face E (some img) vid).isAuthenticated = true)
    (huid : (authenticate_face E (some img) vid).userId = some u)
    (hu0 : u ≠ 0)
    (husers : E.users u = none) :
    (authenticate_driver E st now vid (some img) captureFromCamera
      relayEnThrows relayDisThrows).1 =
      DriverOutcome.unauthorized
        (authenticate_face E (some img) vid).confidence ∧
    lookupLockout
      (authenticate_driver E st now vid (some img) captureFromCamera
        relayEnThrows relayDisThrows).2.1.lastFailedAuth vid = some now ∧
    (authenticate_driver E st now vid (some img) captureFromCamera
      relayEnThrows relayDisThrows).2.2.head? =
      some (Effect.authLog none "unauthorized"
        (authenticate_face E (some img) vid).confidence) ∧
    Effect.alertCreate "unauthorized_access" ∈
      (authenticate_driver E st now vid (some img) captureFromCamera
        relayEnThrows relayDisThrows).2.2 ∧
    Effect.relayDisable
        (RelayController.disable_engine relayDisThrows st.relayState).1 ∈
      (authenticate_driver E st now vid (some img) captureFromCamera
        relayEnThrows relayDisThrows).2.2 ∧
    Effect.vehicleSave false ∈
      (authenticate_driver E st now vid (some img) captureFromCamera
        relayEnThrows relayDisThrows).2.2 := by
  unfold authenticate_driver
  rw [hveh]
  simp [hlock, hauth, huid, husers, hu0, lookup_setLockout,
    RelayController.disable_engine]

/-- CLAIM C10 witness: the concrete environment whose User store is empty
while user 7 is enrolled: the authenticated match on user 7 is downgraded
to the full unauthorized outcome. -/
theorem C10_missing_user_downgraded_witness :
    (authenticate_driver ghostUserEnv ⟨[], false⟩ 0 1 (some ()) false
      false false).1 =
      DriverOutcome.unauthorized
        (authenticate_face ghostUserEnv (some ()) 1).confidence ∧
    lookupLockout
      (authenticate_driver ghostUserEnv ⟨[], false⟩ 0 1 (some ()) false
        false false).2.1.lastFailedAuth 1 = some 0 ∧
    (authenticate_driver ghostUserEnv ⟨[], false⟩ 0 1 (some ()) false
      false false).2.2.head? =
      some (Effect.authLog none "unauthorized"
        (authenticate_face ghostUserEnv (some ()) 1).confidence) ∧
    Effect.alertCreate "unauthorized_access" ∈
      (authenticate_driver ghostUserEnv ⟨[], false⟩ 0 1 (some ()) false
        false false).2.2 ∧
    Effect.relayDisable
        (RelayController.disable_engine false false).1 ∈
      (authenticate_driver ghostUserEnv ⟨[], false⟩ 0 1 (some ()) false
        false false).2.2 ∧
    Effect.vehicleSave false ∈
      (authenticate_driver ghostUserEnv ⟨[], false⟩ 0 1 (some ()) false
        false false).2.2 :=
  C10_missing_user_downgraded ghostUserEnv ⟨[], false⟩ 0 1
    ⟨"KAA 001A", "+254700000001"⟩ () 7 false false false rfl rfl
    (by rw [ghostUserEnv_face]) (by rw [ghostUserEnv_face]) (by norm_num)
    rfl

end VehicleSecurity
